import Mathlib

/-!
Shallow embedding of the cost-optimization core of this repository:
the error classifier, retry-eligibility policy, backoff calculator,
cost estimator, cost-aware retry strategy (`EnhancedRetryStrategy`),
circuit breaker, and the prompt-cache eligibility check
(`shouldCacheContent` / `estimateTokenCount`).

Conventions of the embedding:
- JavaScript numbers are modelled as `ℚ` (attempt counts and retry caps
  as `ℕ`, HTTP status codes as `ℤ`).
- A JavaScript value that may be `undefined`/`null` is an `Option`.
- A thrown `TypeError` is `Except.error ()`; normal returns are `Except.ok`.
- `Math.random()` and `Date.now()` are passed in explicitly as the
  `rand` and `now` arguments of the functions that read them.
- A `NaN` flowing out of `calculateRetryDelay` (malformed retry-after
  header) is modelled as `none : Option ℚ`.
-/

/-- Substring matcher: does `hay` start with `needle`?  Used to embed
JavaScript's `String.prototype.includes`. -/
def matchesAt (needle hay : List Char) : Bool :=
  match needle, hay with
  | [], _ => true
  | _ :: _, [] => false
  | a :: n, b :: h => a == b && matchesAt n h

/-- Does `needle` occur anywhere in `hay`? -/
def hasSub (needle hay : List Char) : Bool :=
  match hay with
  | [] => matchesAt needle []
  | _ :: h => matchesAt needle hay || hasSub needle h

/-- Embedding of JavaScript `hay.includes(needle)` for strings. -/
def strContains (hay needle : String) : Bool :=
  hasSub needle.data hay.data

/-- JavaScript `a || b` on possibly-undefined numbers (`0` is falsy). -/
def jsOrInt (a b : Option ℤ) : Option ℤ :=
  match a with
  | some v => if v == 0 then b else some v
  | none => b

/-- JavaScript `a || b` on possibly-undefined strings (`""` is falsy). -/
def jsOrStr (a b : Option String) : Option String :=
  match a with
  | some s => if s == "" then b else some s
  | none => b

/-- JavaScript truthiness of a possibly-undefined number. -/
def truthyNum (a : Option ℚ) : Bool :=
  match a with
  | some v => !(v == 0)
  | none => false

/-- Embedding of JavaScript `parseInt(s, 10)`: skip leading whitespace,
optional sign, then the longest leading digit run; `none` models `NaN`. -/
def parseIntJS (s : String) : Option ℤ :=
  let l := s.data.dropWhile Char.isWhitespace
  let signRest : ℤ × List Char :=
    match l with
    | c :: cs => if c == '-' then (-1, cs) else if c == '+' then (1, cs) else (1, l)
    | [] => (1, [])
  let ds := signRest.2.takeWhile Char.isDigit
  if ds.isEmpty then none
  else some (signRest.1 * (ds.foldl (fun acc c => acc * 10 + (c.toNat - 48)) 0 : ℕ))

/-- The slice of `ModelInfo` the retry core reads: prices per million
tokens, each possibly absent. -/
structure ModelInfo where
  inputPrice : Option ℚ := none
  outputPrice : Option ℚ := none

/-- A failure object as consumed by the classifier and retry strategy:
"anything exposing an optional numeric status, an optional string
message, an optional code, and an optional string-keyed header map".
The object itself may be `null`/`undefined`, modelled as
`Option Failure` at use sites. -/
structure Failure where
  status : Option ℤ := none
  responseStatus : Option ℤ := none
  message : Option String := none
  code : Option String := none
  headers : List (String × String) := []

/-- `error?.headers?.[k]` -/
def getHeader (error : Option Failure) (k : String) : Option String :=
  match error with
  | none => none
  | some f => f.headers.lookup k

/-- `ErrorType` enum of `enhanced-retry.ts`. -/
inductive ErrorType where
  | RATE_LIMIT
  | SERVER_ERROR
  | NETWORK_ERROR
  | AUTH_ERROR
  | CONTEXT_LENGTH_ERROR
  | UNKNOWN_ERROR
deriving DecidableEq, Repr

/-- The string value of each `ErrorType` enum member. -/
def errorTypeStr : ErrorType → String
  | .RATE_LIMIT => "rate_limit"
  | .SERVER_ERROR => "server_error"
  | .NETWORK_ERROR => "network_error"
  | .AUTH_ERROR => "auth_error"
  | .CONTEXT_LENGTH_ERROR => "context_length_error"
  | .UNKNOWN_ERROR => "unknown_error"

def kwRateLimit : String := "rate limit"

def kwTooMany : String := "too many requests"

def kwCtxLength : String := "context length"

def kwTokenLimit : String := "token limit"

def kwMaxContext : String := "maximum context"

def kwNetwork : String := "network"

def kwTimeout : String := "timeout"

def kwConnection : String := "connection"

def kwEconnreset : String := "ECONNRESET"

def kwEtimedout : String := "ETIMEDOUT"

/-- `status === v` where `status` may be undefined. -/
def statusEq (status : Option ℤ) (v : ℤ) : Bool :=
  match status with
  | some s => s == v
  | none => false

/-- `status >= v` where `status` may be undefined (`undefined >= v` is false). -/
def statusGe (status : Option ℤ) (v : ℤ) : Bool :=
  match status with
  | some s => v ≤ s
  | none => false

/-- `status < v` where `status` may be undefined (`undefined < v` is false). -/
def statusLt (status : Option ℤ) (v : ℤ) : Bool :=
  match status with
  | some s => s < v
  | none => false

/-- Embedding of `classifyError` (enhanced-retry.ts).  Mirrors the source
line by line: merged status via `error?.status || error?.response?.status`,
lowercased message via `error?.message?.toLowerCase() || ""`, then the
ordered rule chain.  The network rule reads `error.code` WITHOUT optional
chaining, so when `error` is `null`/`undefined` and no earlier rule has
matched, the access throws — modelled as `Except.error ()`. -/
def classifyError (error : Option Failure) : Except Unit ErrorType :=
  let status := jsOrInt (error.bind Failure.status) (error.bind Failure.responseStatus)
  let message := ((error.bind Failure.message).map String.toLower).getD ""
  if statusEq status 429 || strContains message kwRateLimit || strContains message kwTooMany then
    .ok .RATE_LIMIT
  else if statusGe status 500 && statusLt status 600 then
    .ok .SERVER_ERROR
  else if statusEq status 401 || statusEq status 403 then
    .ok .AUTH_ERROR
  else if strContains message kwCtxLength || strContains message kwTokenLimit
      || strContains message kwMaxContext || statusEq status 413 then
    .ok .CONTEXT_LENGTH_ERROR
  else if strContains message kwNetwork || strContains message kwTimeout
      || strContains message kwConnection then
    .ok .NETWORK_ERROR
  else
    match error with
    | none => .error ()
    | some f =>
      if f.code == some kwEconnreset || f.code == some kwEtimedout then
        .ok .NETWORK_ERROR
      else
        .ok .UNKNOWN_ERROR

/-- `EnhancedRetryOptions` of `enhanced-retry.ts`: every field optional. -/
structure EnhancedRetryOptions where
  maxRetries : Option ℕ := none
  baseDelay : Option ℚ := none
  maxDelay : Option ℚ := none
  retryAllErrors : Option Bool := none
  costAwareRetry : Option Bool := none
  modelInfo : Option ModelInfo := none
  maxCostThreshold : Option ℚ := none
  customRetryCondition : Option (Option Failure → ℕ → Bool) := none
  jitterFactor : Option ℚ := none

/-- Embedding of `shouldRetryError` (enhanced-retry.ts). -/
def shouldRetryError (errorType : ErrorType) (attempt maxRetries : ℕ)
    (options : EnhancedRetryOptions := {}) : Bool :=
  if maxRetries ≤ attempt then
    false
  else if errorType == .AUTH_ERROR || errorType == .CONTEXT_LENGTH_ERROR then
    false
  else if errorType == .RATE_LIMIT || errorType == .SERVER_ERROR then
    true
  else if errorType == .NETWORK_ERROR then
    decide (attempt < min maxRetries 3)
  else
    options.retryAllErrors.getD false

/-- The error-kind dependent backoff multiplier of `calculateRetryDelay`. -/
def errorMultiplier : ErrorType → ℚ
  | .RATE_LIMIT => 2
  | .SERVER_ERROR => 3 / 2
  | .NETWORK_ERROR => 6 / 5
  | _ => 1

/-- The `delay` variable of `calculateRetryDelay` before jitter: the
retry-after header branch (absolute-instant or delta-seconds reading, or
`NaN` when the header does not parse) or the exponential backoff with the
per-kind multiplier. -/
def retryDelayBase (attempt : ℕ) (baseDelay maxDelay : ℚ) (errorType : ErrorType)
    (retryAfterHeader : Option String) (now : ℚ) : Option ℚ :=
  let useHeader : Bool :=
    match retryAfterHeader with
    | some h => !(h == "")
    | none => false
  if useHeader then
    match parseIntJS (retryAfterHeader.getD "") with
    | none => none
    | some v =>
      if now / 1000 < (v : ℚ) then some ((v : ℚ) * 1000 - now)
      else some ((v : ℚ) * 1000)
  else
    some (min maxDelay (baseDelay * 2 ^ attempt * errorMultiplier errorType))

/-- Embedding of `calculateRetryDelay` (enhanced-retry.ts).  `rand` is the
value of `Math.random()` and `now` the value of `Date.now()`.  Result
`none` models a `NaN` delay, which the source produces when a present
retry-after header fails to parse. -/
def calculateRetryDelay (attempt : ℕ) (baseDelay maxDelay : ℚ) (errorType : ErrorType)
    (retryAfterHeader : Option String := none) (jitterFactor : ℚ := 1 / 10)
    (rand : ℚ := 0) (now : ℚ := 0) : Option ℚ :=
  match retryDelayBase attempt baseDelay maxDelay errorType retryAfterHeader now with
  | none => none
  | some d => some (max 0 (d + d * jitterFactor * (rand * 2 - 1)))

/-- Embedding of `estimateRetryCost` (enhanced-retry.ts). -/
def estimateRetryCost (modelInfo : ModelInfo) (estimatedInputTokens : ℚ)
    (estimatedOutputTokens : ℚ := 0) : ℚ :=
  (estimatedInputTokens / 1000000) * modelInfo.inputPrice.getD 0
    + (estimatedOutputTokens / 1000000) * modelInfo.outputPrice.getD 0

/-- The value returned by `EnhancedRetryStrategy.shouldRetry`.  `delay`
uses `none` for a `NaN` millisecond value. -/
structure RetryDecision where
  shouldRetry : Bool
  delay : Option ℚ
  reason : Option String

def reasonCustomFail : String := "Custom retry condition failed"

def reasonPiece1 : String := "Error type "

def reasonPiece2 : String := " not retryable or max attempts reached"

def reasonPiece3 : String := "Retry cost threshold exceeded ($"

def reasonPiece4 : String := ")"

def reasonPiece5 : String := "Retrying "

def reasonPiece6 : String := " error with "

def reasonPiece7 : String := "ms delay"

def nanStr : String := "NaN"

/-- Rendering of a number interpolated into a template string.  The exact
digits are immaterial to every property below; only the fixed parts of the
templates are ever inspected. -/
def numStr (q : ℚ) : String := toString q

/-- Rendering of a possibly-`NaN` number. -/
def numOptStr : Option ℚ → String
  | some q => numStr q
  | none => nanStr

/-- `this.options` after the constructor merge
`{ ...DEFAULT_ENHANCED_OPTIONS, ...options }`: every defaulted field is
present. -/
structure StrategyOptions where
  maxRetries : ℕ
  baseDelay : ℚ
  maxDelay : ℚ
  retryAllErrors : Bool
  costAwareRetry : Bool
  maxCostThreshold : ℚ
  jitterFactor : ℚ
  modelInfo : Option ModelInfo
  customRetryCondition : Option (Option Failure → ℕ → Bool)

/-- The `EnhancedRetryStrategy` constructor:
`this.options = { ...DEFAULT_ENHANCED_OPTIONS, ...options }`. -/
def mergeOptions (o : EnhancedRetryOptions) : StrategyOptions where
  maxRetries := o.maxRetries.getD 5
  baseDelay := o.baseDelay.getD 1000
  maxDelay := o.maxDelay.getD 30000
  retryAllErrors := o.retryAllErrors.getD false
  costAwareRetry := o.costAwareRetry.getD true
  maxCostThreshold := o.maxCostThreshold.getD 1
  jitterFactor := o.jitterFactor.getD (1 / 10)
  modelInfo := o.modelInfo
  customRetryCondition := o.customRetryCondition

/-- View of the merged options as the `EnhancedRetryOptions` shape in which
`this.options` is passed to `shouldRetryError`. -/
def StrategyOptions.asOptions (s : StrategyOptions) : EnhancedRetryOptions where
  maxRetries := some s.maxRetries
  baseDelay := some s.baseDelay
  maxDelay := some s.maxDelay
  retryAllErrors := some s.retryAllErrors
  costAwareRetry := some s.costAwareRetry
  modelInfo := s.modelInfo
  maxCostThreshold := some s.maxCostThreshold
  customRetryCondition := s.customRetryCondition
  jitterFactor := some s.jitterFactor

/-- The tail of `EnhancedRetryStrategy.shouldRetry` once a retry has been
granted: read the retry-after header aliases, compute the delay, and
return the grant together with the (possibly updated) ledger value. -/
def shouldRetryGrant (opts : StrategyOptions) (error : Option Failure)
    (errorType : ErrorType) (attempt : ℕ) (rand now : ℚ)
    (newTotalRetryCost : ℚ) : RetryDecision × ℚ :=
  let retryAfter :=
    jsOrStr (getHeader error "retry-after")
      (jsOrStr (getHeader error "x-ratelimit-reset") (getHeader error "ratelimit-reset"))
  let delay :=
    calculateRetryDelay attempt opts.baseDelay opts.maxDelay errorType retryAfter
      opts.jitterFactor rand now
  ({ shouldRetry := true
     delay := delay
     reason := some (reasonPiece5 ++ errorTypeStr errorType ++ reasonPiece6
       ++ numOptStr delay ++ reasonPiece7) },
   newTotalRetryCost)

/-- Embedding of `EnhancedRetryStrategy.shouldRetry`.  The instance state
`this.totalRetryCost` is passed in and the updated value returned; `rand`
and `now` stand for `Math.random()` / `Date.now()`.  The classifier's
possible throw on a `null` failure propagates. -/
def EnhancedRetryStrategy.shouldRetry (opts : StrategyOptions) (totalRetryCost : ℚ)
    (error : Option Failure) (attempt : ℕ) (estimatedTokens : Option ℚ := none)
    (rand : ℚ := 0) (now : ℚ := 0) : Except Unit (RetryDecision × ℚ) :=
  match classifyError error with
  | .error e => .error e
  | .ok errorType =>
    if (match opts.customRetryCondition with
        | some cond => !(cond error attempt)
        | none => false) then
      .ok ({ shouldRetry := false, delay := some 0, reason := some reasonCustomFail },
        totalRetryCost)
    else if !(shouldRetryError errorType attempt opts.maxRetries opts.asOptions) then
      .ok ({ shouldRetry := false
             delay := some 0
             reason := some (reasonPiece1 ++ errorTypeStr errorType ++ reasonPiece2) },
        totalRetryCost)
    else
      match opts.modelInfo with
      | some mi =>
        if opts.costAwareRetry && truthyNum estimatedTokens then
          let retryCost := estimateRetryCost mi (estimatedTokens.getD 0)
          if opts.maxCostThreshold < totalRetryCost + retryCost then
            .ok ({ shouldRetry := false
                   delay := some 0
                   reason := some (reasonPiece3 ++ numStr opts.maxCostThreshold ++ reasonPiece4) },
              totalRetryCost)
          else
            .ok (shouldRetryGrant opts error errorType attempt rand now
              (totalRetryCost + retryCost))
        else
          .ok (shouldRetryGrant opts error errorType attempt rand now totalRetryCost)
      | none =>
        .ok (shouldRetryGrant opts error errorType attempt rand now totalRetryCost)

/-- `EnhancedRetryStrategy.getTotalRetryCost` reads the instance ledger. -/
def EnhancedRetryStrategy.getTotalRetryCost (totalRetryCost : ℚ) : ℚ :=
  totalRetryCost

/-- `EnhancedRetryStrategy.resetCost`. -/
def EnhancedRetryStrategy.resetCost : ℚ := 0

/-- The decision bool of a `shouldRetry` result (`none` if it threw). -/
def retryOf (r : Except Unit (RetryDecision × ℚ)) : Option Bool :=
  match r with
  | .ok (d, _) => some d.shouldRetry
  | .error _ => none

/-- The updated ledger value of a `shouldRetry` result (`none` if it threw). -/
def costOf (r : Except Unit (RetryDecision × ℚ)) : Option ℚ :=
  match r with
  | .ok (_, c) => some c
  | .error _ => none

/-- Whether the decision's reason contains the given phrase. -/
def reasonHas (r : Except Unit (RetryDecision × ℚ)) (key : String) : Bool :=
  match r with
  | .ok (d, _) =>
    match d.reason with
    | some s => strContains s key
    | none => false
  | .error _ => false

/-- Circuit breaker state enum: `"closed" | "open" | "half-open"`. -/
inductive CBState where
  | closed
  | opened
  | halfOpen
deriving DecidableEq, Repr

/-- The `CircuitBreaker` class: private fields plus constructor
parameters. -/
structure CircuitBreaker where
  failures : ℕ
  lastFailureTime : ℚ
  state : CBState
  failureThreshold : ℕ
  recoveryTimeout : ℚ

/-- `new CircuitBreaker(failureThreshold, recoveryTimeout)`. -/
def CircuitBreaker.init (failureThreshold : ℕ := 5) (recoveryTimeout : ℚ := 60000) :
    CircuitBreaker :=
  { failures := 0, lastFailureTime := 0, state := .closed
    failureThreshold := failureThreshold, recoveryTimeout := recoveryTimeout }

/-- `CircuitBreaker.allowRequest()`: returns the admission decision and the
(possibly transitioned) breaker; `now` is `Date.now()`. -/
def CircuitBreaker.allowRequest (cb : CircuitBreaker) (now : ℚ) : Bool × CircuitBreaker :=
  match cb.state with
  | .closed => (true, cb)
  | .opened =>
    if cb.recoveryTimeout ≤ now - cb.lastFailureTime then
      (true, { cb with state := .halfOpen })
    else
      (false, cb)
  | .halfOpen => (true, cb)

/-- `CircuitBreaker.recordSuccess()`. -/
def CircuitBreaker.recordSuccess (cb : CircuitBreaker) : CircuitBreaker :=
  { cb with failures := 0, state := .closed }

/-- `CircuitBreaker.recordFailure()`; `now` is `Date.now()`. -/
def CircuitBreaker.recordFailure (cb : CircuitBreaker) (now : ℚ) : CircuitBreaker :=
  let f := cb.failures + 1
  { cb with
    failures := f
    lastFailureTime := now
    state := if cb.failureThreshold ≤ f then .opened else cb.state }

/-- `CircuitBreaker.getState()`. -/
def CircuitBreaker.getState (cb : CircuitBreaker) : CBState :=
  cb.state

/-- `CacheOptimizationConfig` of `prompt-cache-optimizer.ts` (the TTL
record is irrelevant to the eligibility decision and omitted). -/
structure CacheOptimizationConfig where
  minTokensForCaching : ℤ
  aggressiveCaching : Bool

/-- `DEFAULT_CACHE_CONFIG`. -/
def DEFAULT_CACHE_CONFIG : CacheOptimizationConfig :=
  { minTokensForCaching := 1024, aggressiveCaching := false }

/-- Embedding of `estimateTokenCount`: `Math.ceil(text.length / 4)`.
Reading `.length` of a `null`/`undefined` text throws, modelled as
`Except.error ()`. -/
def estimateTokenCount (text : Option String) : Except Unit ℕ :=
  match text with
  | none => .error ()
  | some s => .ok ((s.length + 3) / 4)

/-- Embedding of `shouldCacheContent`: token estimate at least the
configured minimum.  A throw from `estimateTokenCount` propagates. -/
def shouldCacheContent (content : Option String)
    (config : CacheOptimizationConfig := DEFAULT_CACHE_CONFIG) : Except Unit Bool :=
  match estimateTokenCount content with
  | .error e => .error e
  | .ok tokenCount => .ok (decide (config.minTokensForCaching ≤ (tokenCount : ℤ)))

/-- The six-rule precedence table of §4.1 of the specification, transcribed
from the claim's words (first match wins), over the defensively read
status (`error.status || error.response.status`) and lowercased message. -/
def classifySpec (f : Failure) : ErrorType :=
  let status := jsOrInt f.status f.responseStatus
  let message := (f.message.map String.toLower).getD ""
  if statusEq status 429 || strContains message kwRateLimit || strContains message kwTooMany then
    .RATE_LIMIT
  else if statusGe status 500 && statusLt status 600 then
    .SERVER_ERROR
  else if statusEq status 401 || statusEq status 403 then
    .AUTH_ERROR
  else if strContains message kwCtxLength || strContains message kwTokenLimit
      || strContains message kwMaxContext || statusEq status 413 then
    .CONTEXT_LENGTH_ERROR
  else if strContains message kwNetwork || strContains message kwTimeout
      || strContains message kwConnection
      || f.code == some kwEconnreset || f.code == some kwEtimedout then
    .NETWORK_ERROR
  else
    .UNKNOWN_ERROR

/-- The §4.3 reference table of retry eligibility, transcribed from the
claim's words: attempt cap first, then per-kind rules. -/
def specRetryTable (errorType : ErrorType) (attempt maxRetries : ℕ)
    (retryAllErrors : Bool) : Bool :=
  if maxRetries ≤ attempt then
    false
  else
    match errorType with
    | .AUTH_ERROR => false
    | .CONTEXT_LENGTH_ERROR => false
    | .RATE_LIMIT => true
    | .SERVER_ERROR => true
    | .NETWORK_ERROR => decide (attempt < min maxRetries 3)
    | .UNKNOWN_ERROR => retryAllErrors

/-- A failure object carrying only an HTTP status. -/
def statusOnly (s : ℤ) : Failure :=
  { status := some s }

/-- A plain 429 failure. -/
def err429 : Failure :=
  statusOnly 429

/-- The cost-threshold phrase that claims inspect in denial reasons. -/
def costKey : String := "cost threshold exceeded"

/-- `n` consecutive `recordFailure()` calls, all stamped at time `t`,
starting from a freshly constructed breaker. -/
def cbAfterFailures (threshold : ℕ) (timeout t : ℚ) (n : ℕ) : CircuitBreaker :=
  (fun cb => cb.recordFailure t)^[n] (CircuitBreaker.init threshold timeout)

/-- A breaker with threshold 1 that has just recorded a failure at time 0:
its gate denies until time 60000. -/
def cbTripped : CircuitBreaker :=
  (CircuitBreaker.init 1 60000).recordFailure 0

/-- Price metadata of a $3-per-million-input-tokens model. -/
def miClaude : ModelInfo :=
  { inputPrice := some 3 }

/-- A strategy configured as in §8 of the spec: cost-aware (the default),
`maxCostThreshold = 0.10`, and the $3/1e6 price metadata. -/
def optsCost : StrategyOptions :=
  mergeOptions { maxCostThreshold := some (1 / 10), modelInfo := some miClaude }

theorem matchesAt_append : ∀ (n h r : List Char), matchesAt n h = true → matchesAt n (h ++ r) = true
  | [], _, _, _ => rfl
  | _ :: _, [], _, hm => by simp [matchesAt] at hm
  | a :: n, b :: h, r, hm => by
    simp only [matchesAt, Bool.and_eq_true] at hm
    simp only [List.cons_append, matchesAt, Bool.and_eq_true]
    exact ⟨hm.1, matchesAt_append n h r hm.2⟩

theorem hasSub_nil_needle : ∀ (h : List Char), hasSub [] h = true
  | [] => rfl
  | _ :: t => by
    simp only [hasSub, matchesAt, Bool.true_or]

theorem hasSub_append : ∀ (n h r : List Char), hasSub n h = true → hasSub n (h ++ r) = true
  | n, [], r, hs => by
    cases n with
    | nil => exact hasSub_nil_needle r
    | cons a t => simp [hasSub, matchesAt] at hs
  | n, c :: h, r, hs => by
    simp only [hasSub, Bool.or_eq_true] at hs
    simp only [List.cons_append, hasSub, Bool.or_eq_true]
    cases hs with
    | inl hm => exact Or.inl (matchesAt_append n (c :: h) r hm)
    | inr ht => exact Or.inr (hasSub_append n h r ht)

theorem strContains_append (s t key : String) (h : strContains s key = true) :
    strContains (s ++ t) key = true := by
  simpa [strContains, String.data_append] using hasSub_append key.data s.data t.data h

theorem cbAfterFailures_spec (th : ℕ) (rt t : ℚ) (n : ℕ) :
    (cbAfterFailures th rt t n).failureThreshold = th ∧
    (cbAfterFailures th rt t n).recoveryTimeout = rt ∧
    (cbAfterFailures th rt t n).failures = n ∧
    (cbAfterFailures th rt t n).lastFailureTime = (if n = 0 then 0 else t) ∧
    (cbAfterFailures th rt t n).state
      = (if th ≤ n ∧ n ≠ 0 then CBState.opened else CBState.closed) := by
  induction n with
  | zero => simp [cbAfterFailures, CircuitBreaker.init]
  | succ k ih =>
    obtain ⟨h1, h2, h3, h4, h5⟩ := ih
    have hs : cbAfterFailures th rt t (k + 1) = (cbAfterFailures th rt t k).recordFailure t := by
      simp [cbAfterFailures, Function.iterate_succ_apply']
    rw [hs]
    simp only [CircuitBreaker.recordFailure, h1, h2, h3, h5]
    refine ⟨trivial, trivial, trivial, by simp, ?_⟩
    by_cases hth : th ≤ k + 1
    · simp [hth]
    · have hk : ¬(th ≤ k ∧ k ≠ 0) := by omega
      simp [hth, hk]

/-- Claim C2: the spec asserts `classifyError` is total and never raises,
with a missing failure object classifying as Unknown.  The code violates
this: with a `null`/`undefined` failure and no message keyword matched,
the network rule evaluates `error.code` without optional chaining and
throws a TypeError.  This theorem evaluates the code at the failing
input. -/
theorem c2_classify_null_throws : classifyError none = Except.error () := rfl

/-- Claim C3 counterexample: `shouldCacheContent(null, config)` does not
return `false` — `estimateTokenCount` reads `.length` of the `null`
content and throws. -/
theorem c3_counterexample : shouldCacheContent none DEFAULT_CACHE_CONFIG = Except.error () := rfl

/-- Claim C3 as amended: for every caching configuration with a positive
minimum-token threshold, `shouldCacheContent` applied to the empty string
returns `false` without raising; applied to `null`/absent content it
throws a TypeError instead of returning `false`. -/
theorem c3_amended (cfg : CacheOptimizationConfig) (h : 0 < cfg.minTokensForCaching) :
    shouldCacheContent (some "") cfg = Except.ok false ∧
    shouldCacheContent none cfg = Except.error () := by
  constructor
  · have h0 : estimateTokenCount (some "") = Except.ok 0 := rfl
    simp only [shouldCacheContent, h0, Except.ok.injEq]
    simpa using by omega
  · rfl

/-- Claim C3 witness: the amended statement at the default configuration. -/
theorem c3_witness :
    shouldCacheContent (some "") DEFAULT_CACHE_CONFIG = Except.ok false ∧
    shouldCacheContent none DEFAULT_CACHE_CONFIG = Except.error () :=
  c3_amended DEFAULT_CACHE_CONFIG (by norm_num [DEFAULT_CACHE_CONFIG])

/-- Claim C5: `classifyError` implements exactly the six-rule precedence
table (first match wins) on every non-null failure object, and in
particular maps every status in `[500,599]` to `SERVER_ERROR`, `429` to
`RATE_LIMIT`, `401`/`403` to `AUTH_ERROR`, and `413` to
`CONTEXT_LENGTH_ERROR`. -/
theorem c5_classifier_table :
    (∀ f : Failure, classifyError (some f) = Except.ok (classifySpec f)) ∧
    (∀ s : ℤ, 500 ≤ s → s ≤ 599 →
      classifyError (some (statusOnly s)) = Except.ok ErrorType.SERVER_ERROR) ∧
    classifyError (some (statusOnly 429)) = Except.ok ErrorType.RATE_LIMIT ∧
    classifyError (some (statusOnly 401)) = Except.ok ErrorType.AUTH_ERROR ∧
    classifyError (some (statusOnly 403)) = Except.ok ErrorType.AUTH_ERROR ∧
    classifyError (some (statusOnly 413)) = Except.ok ErrorType.CONTEXT_LENGTH_ERROR := by
  refine ⟨?_, ?_, rfl, rfl, rfl, rfl⟩
  · intro f
    simp only [classifyError, classifySpec, Option.bind_some]
    split_ifs <;> simp_all
  · intro s h1 h2
    have hs0 : ¬(s = 0) := by omega
    have hmerge : jsOrInt (some s) none = some s := by simp [jsOrInt, hs0]
    have e1 : strContains "" kwRateLimit = false := rfl
    have e2 : strContains "" kwTooMany = false := rfl
    have h429 : ¬(s = 429) := by omega
    simp [classifyError, statusOnly, hmerge, statusEq, statusGe, statusLt,
      e1, e2, h429, h1, show s < 600 from by omega]

/-- Claim C5 witness: the universal conjuncts instantiated — the table at
a concrete failure object and `SERVER_ERROR` at status `503`. -/
theorem c5_witness :
    classifyError (some (statusOnly 503)) = Except.ok ErrorType.SERVER_ERROR :=
  c5_classifier_table.2.1 503 (by norm_num) (by norm_num)

/-- Claim C6: `shouldRetryError` equals the §4.3 reference table for every
error kind, attempt, retry cap and policy, and in particular equals
`attempt < maxRetries` for `RATE_LIMIT`. -/
theorem c6_eligibility_table :
    (∀ (et : ErrorType) (attempt maxRetries : ℕ) (o : EnhancedRetryOptions),
      shouldRetryError et attempt maxRetries o
        = specRetryTable et attempt maxRetries (o.retryAllErrors.getD false)) ∧
    (∀ (attempt maxRetries : ℕ) (o : EnhancedRetryOptions),
      shouldRetryError ErrorType.RATE_LIMIT attempt maxRetries o = decide (attempt < maxRetries)) := by
  constructor
  · intro et a m o
    cases et <;> rfl
  · intro a m o
    by_cases h : m ≤ a
    · simp [shouldRetryError, h, decide_eq_false (by omega : ¬(a < m))]
    · simp [shouldRetryError, h, decide_eq_true (by omega : a < m)]

/-- Claim C8: from the initial Closed state, after exactly
`failureThreshold` consecutive `recordFailure()` calls the state is Open
and `allowRequest()` is false while `recoveryTimeout` has not elapsed
since the last failure; once it has elapsed the next `allowRequest()`
returns true and moves the state to HalfOpen, and a subsequent
`recordSuccess()` returns to Closed with zero consecutive failures. -/
theorem c8_breaker_cycle (th : ℕ) (rt t now1 now2 : ℚ)
    (hth : 1 ≤ th) (h1 : now1 - t < rt) (h2 : rt ≤ now2 - t) :
    (cbAfterFailures th rt t th).getState = CBState.opened ∧
    ((cbAfterFailures th rt t th).allowRequest now1).1 = false ∧
    ((cbAfterFailures th rt t th).allowRequest now2).1 = true ∧
    ((cbAfterFailures th rt t th).allowRequest now2).2.getState = CBState.halfOpen ∧
    ((cbAfterFailures th rt t th).allowRequest now2).2.recordSuccess.getState
      = CBState.closed ∧
    ((cbAfterFailures th rt t th).allowRequest now2).2.recordSuccess.failures = 0 := by
  obtain ⟨hf1, hf2, hf3, hf4, hf5⟩ := cbAfterFailures_spec th rt t th
  have hstate : (cbAfterFailures th rt t th).state = CBState.opened := by
    rw [hf5, if_pos ⟨le_refl th, by omega⟩]
  have hlast : (cbAfterFailures th rt t th).lastFailureTime = t := by
    rw [hf4, if_neg (by omega)]
  refine ⟨?_, ?_, ?_, ?_, ?_, ?_⟩ <;>
    simp [CircuitBreaker.allowRequest, CircuitBreaker.getState, CircuitBreaker.recordSuccess,
      hstate, hlast, hf2, not_le.mpr h1, h2]

/-- Claim C8 witness: the cycle at threshold 3, recovery timeout 1000,
failures at time 0, a denied gate check at 500 and an admitted one at
1000. -/
theorem c8_witness :
    (cbAfterFailures 3 1000 0 3).getState = CBState.opened ∧
    ((cbAfterFailures 3 1000 0 3).allowRequest 500).1 = false ∧
    ((cbAfterFailures 3 1000 0 3).allowRequest 1000).1 = true ∧
    ((cbAfterFailures 3 1000 0 3).allowRequest 1000).2.getState = CBState.halfOpen ∧
    ((cbAfterFailures 3 1000 0 3).allowRequest 1000).2.recordSuccess.getState
      = CBState.closed ∧
    ((cbAfterFailures 3 1000 0 3).allowRequest 1000).2.recordSuccess.failures = 0 :=
  c8_breaker_cycle 3 1000 0 500 1000 (by norm_num) (by norm_num) (by norm_num)

/-- Claim C9: with baseDelay 1000, maxDelay 30000, jitterFactor 0, no
retry hint and a RateLimit error, `calculateRetryDelay` returns exactly
2000 at attempt 0, 16000 at attempt 3, and 30000 (capped) at attempt 10,
for every value of `Math.random()` and `Date.now()`. -/
theorem c9_backoff_values (rand now : ℚ) :
    calculateRetryDelay 0 1000 30000 ErrorType.RATE_LIMIT none 0 rand now = some 2000 ∧
    calculateRetryDelay 3 1000 30000 ErrorType.RATE_LIMIT none 0 rand now = some 16000 ∧
    calculateRetryDelay 10 1000 30000 ErrorType.RATE_LIMIT none 0 rand now = some 30000 := by
  refine ⟨?_, ?_, ?_⟩ <;>
    · simp only [calculateRetryDelay, retryDelayBase, errorMultiplier]
      norm_num [min_def, max_def]

/-- Claim C4 counterexample: with a well-formed retry-after hint of 3600
(read as delta seconds because 3600 is not beyond "now" as a timestamp),
`calculateRetryDelay` returns 3,600,000 ms, far above
`maxDelay × (1 + jitterFactor) = 30000 × 1`. -/
theorem c4_counterexample :
    calculateRetryDelay 0 1000 30000 ErrorType.RATE_LIMIT (some "3600") 0 0 10000000
      = some 3600000 ∧
    ¬((3600000 : ℚ) ≤ 30000 * (1 + 0)) := by
  constructor
  · have hp : parseIntJS "3600" = some 3600 := rfl
    have hne : (("3600" : String) == "") = false := rfl
    simp only [calculateRetryDelay, retryDelayBase, hp, hne, Bool.not_false, if_true,
      Option.getD_some]
    norm_num
  · norm_num

/-- Claim C4 as amended: every numeric duration `calculateRetryDelay`
returns is ≥ 0, and the bound `≤ maxDelay × (1 + jitterFactor)` holds
whenever the retry hint is absent (a well-formed hint may exceed the
bound, and a present but unparsable hint yields NaN rather than a
number). -/
theorem c4_amended (attempt : ℕ) (baseDelay maxDelay jitterFactor rand now : ℚ)
    (errorType : ErrorType) (hint : Option String)
    (hb : 0 ≤ baseDelay) (hm : 0 ≤ maxDelay)
    (hj0 : 0 ≤ jitterFactor) (hj1 : jitterFactor ≤ 1)
    (hr0 : 0 ≤ rand) (hr1 : rand ≤ 1) :
    (∀ d : ℚ,
      calculateRetryDelay attempt baseDelay maxDelay errorType hint jitterFactor rand now
        = some d → 0 ≤ d) ∧
    (∀ d : ℚ,
      calculateRetryDelay attempt baseDelay maxDelay errorType none jitterFactor rand now
        = some d → d ≤ maxDelay * (1 + jitterFactor)) := by
  constructor
  · intro d hd
    simp only [calculateRetryDelay] at hd
    rcases hbase : retryDelayBase attempt baseDelay maxDelay errorType hint now with _ | d0
    · rw [hbase] at hd
      exact absurd hd (by simp)
    · rw [hbase] at hd
      simp only [Option.some.injEq] at hd
      rw [← hd]
      exact le_max_left 0 _
  · intro d hd
    have hbase : retryDelayBase attempt baseDelay maxDelay errorType none now
        = some (min maxDelay (baseDelay * 2 ^ attempt * errorMultiplier errorType)) := rfl
    simp only [calculateRetryDelay, hbase, Option.some.injEq] at hd
    set D := min maxDelay (baseDelay * 2 ^ attempt * errorMultiplier errorType) with hD
    have hmult : 0 ≤ errorMultiplier errorType := by
      cases errorType <;> norm_num [errorMultiplier]
    have hX : 0 ≤ baseDelay * 2 ^ attempt * errorMultiplier errorType :=
      mul_nonneg (mul_nonneg hb (by positivity)) hmult
    have hD0 : 0 ≤ D := le_min hm hX
    have hDm : D ≤ maxDelay := min_le_left _ _
    have h2r : rand * 2 - 1 ≤ 1 := by linarith
    have hDjf : 0 ≤ D * jitterFactor := mul_nonneg hD0 hj0
    have hjit : D * jitterFactor * (rand * 2 - 1) ≤ D * jitterFactor := by
      calc D * jitterFactor * (rand * 2 - 1)
          ≤ D * jitterFactor * 1 := mul_le_mul_of_nonneg_left h2r hDjf
        _ = D * jitterFactor := mul_one _
    have hfin : D + D * jitterFactor * (rand * 2 - 1) ≤ maxDelay * (1 + jitterFactor) := by
      have h1 : D + D * jitterFactor * (rand * 2 - 1) ≤ D * (1 + jitterFactor) := by
        have := hjit
        ring_nf
        nlinarith [hjit]
      have h2 : D * (1 + jitterFactor) ≤ maxDelay * (1 + jitterFactor) :=
        mul_le_mul_of_nonneg_right hDm (by linarith)
      linarith
    rw [← hd]
    exact max_le (mul_nonneg hm (by linarith)) hfin

/-- Claim C4 witness: the amended bounds at attempt 1, baseDelay 1000,
maxDelay 30000, jitterFactor 0, rand 1 and no hint, where the computed
delay is 4000. -/
theorem c4_witness : (0 : ℚ) ≤ 4000 ∧ (4000 : ℚ) ≤ 30000 * (1 + 0) := by
  have h := c4_amended 1 1000 30000 0 1 0 ErrorType.RATE_LIMIT none
    (by norm_num) (by norm_num) (by norm_num) (by norm_num) (by norm_num) (by norm_num)
  have hcalc : calculateRetryDelay 1 1000 30000 ErrorType.RATE_LIMIT none 0 1 0
      = some 4000 := by
    simp only [calculateRetryDelay, retryDelayBase, errorMultiplier]
    norm_num [min_def, max_def]
  exact ⟨h.1 4000 hcalc, h.2 4000 hcalc⟩

/-- Claim C1 counterexample: a breaker that has tripped (threshold 1, one
failure recorded at time 0) denies its gate at time 0, yet the Retry
Strategy's `shouldRetry` — which never consults any breaker — still
grants a retry for a rate-limited failure at attempt 0. -/
theorem c1_counterexample :
    (cbTripped.allowRequest 0).1 = false ∧
    retryOf (EnhancedRetryStrategy.shouldRetry (mergeOptions {}) 0 (some err429) 0 none 0 0)
      = some true := by
  constructor
  · simp only [cbTripped, CircuitBreaker.init, CircuitBreaker.recordFailure,
      CircuitBreaker.allowRequest]
    norm_num
  · rfl

/-- Claim C1 as amended: `EnhancedRetryStrategy.shouldRetry` does not
consult the Circuit Breaker's gate at all — its decision is the same
whatever the breaker's state, so a retry can be granted even while every
breaker's `allowRequest` is denying.  (The gate is a separate object the
caller must check on its own.) -/
theorem c1_amended (cb : CircuitBreaker) (tGate : ℚ)
    (hdeny : (cb.allowRequest tGate).1 = false) :
    retryOf (EnhancedRetryStrategy.shouldRetry (mergeOptions {}) 0 (some err429) 0 none 0 0)
      = some true := rfl

/-- Claim C1 witness: the amended statement at the tripped breaker, whose
gate denies at time 0. -/
theorem c1_witness :
    retryOf (EnhancedRetryStrategy.shouldRetry (mergeOptions {}) 0 (some err429) 0 none 0 0)
      = some true :=
  c1_amended cbTripped 0 (by
    simp only [cbTripped, CircuitBreaker.init, CircuitBreaker.recordFailure,
      CircuitBreaker.allowRequest]
    norm_num)

/-- Claim C7: in cost-aware mode with price metadata and a nonzero
estimated token count, on an otherwise-retryable failure: if the
accumulated cost plus this attempt's estimated cost exceeds
`maxCostThreshold`, `shouldRetry` denies with a reason mentioning "cost
threshold exceeded" and leaves the ledger unchanged; otherwise it grants
and adds this attempt's cost to the ledger. -/
theorem c7_cost_aware (opts : StrategyOptions) (total : ℚ) (err : Option Failure)
    (k : ErrorType) (attempt : ℕ) (t rand now : ℚ) (mi : ModelInfo)
    (hc : classifyError err = Except.ok k)
    (hcust : opts.customRetryCondition = none)
    (helig : shouldRetryError k attempt opts.maxRetries opts.asOptions = true)
    (hcost : opts.costAwareRetry = true)
    (hmi : opts.modelInfo = some mi)
    (ht : t ≠ 0) :
    (opts.maxCostThreshold < total + estimateRetryCost mi t →
      retryOf (EnhancedRetryStrategy.shouldRetry opts total err attempt (some t) rand now)
        = some false ∧
      costOf (EnhancedRetryStrategy.shouldRetry opts total err attempt (some t) rand now)
        = some total ∧
      reasonHas (EnhancedRetryStrategy.shouldRetry opts total err attempt (some t) rand now)
        costKey = true) ∧
    (total + estimateRetryCost mi t ≤ opts.maxCostThreshold →
      retryOf (EnhancedRetryStrategy.shouldRetry opts total err attempt (some t) rand now)
        = some true ∧
      costOf (EnhancedRetryStrategy.shouldRetry opts total err attempt (some t) rand now)
        = some (total + estimateRetryCost mi t)) := by
  have hbeq : (t == 0) = false := beq_eq_false_iff_ne.mpr ht
  constructor
  · intro hgt
    have hred : EnhancedRetryStrategy.shouldRetry opts total err attempt (some t) rand now
        = Except.ok
          ({ shouldRetry := false
             delay := some 0
             reason := some (reasonPiece3 ++ numStr opts.maxCostThreshold ++ reasonPiece4) },
           total) := by
      simp [EnhancedRetryStrategy.shouldRetry, hc, hcust, helig, hcost, hmi, truthyNum,
        hbeq, hgt]
    refine ⟨by simp [retryOf, hred], by simp [costOf, hred], ?_⟩
    simp only [reasonHas, hred]
    exact strContains_append reasonPiece3 (numStr opts.maxCostThreshold ++ reasonPiece4)
      costKey rfl
  · intro hle
    have hnlt : ¬(opts.maxCostThreshold < total + estimateRetryCost mi t) := not_lt.mpr hle
    have hred : EnhancedRetryStrategy.shouldRetry opts total err attempt (some t) rand now
        = Except.ok
          (shouldRetryGrant opts err k attempt rand now (total + estimateRetryCost mi t)) := by
      simp [EnhancedRetryStrategy.shouldRetry, hc, hcust, helig, hcost, hmi, truthyNum,
        hbeq, hnlt]
    exact ⟨by simp [retryOf, hred, shouldRetryGrant], by simp [costOf, hred, shouldRetryGrant]⟩

/-- Claim C7 witness: with `maxCostThreshold = 0.10`, input price $3 per
million tokens and one million estimated tokens (attempt cost $3), the
very first `shouldRetry` call denies, keeps the ledger at 0, and its
reason mentions "cost threshold exceeded". -/
theorem c7_witness :
    retryOf (EnhancedRetryStrategy.shouldRetry optsCost 0 (some err429) 0 (some 1000000) 0 0)
      = some false ∧
    costOf (EnhancedRetryStrategy.shouldRetry optsCost 0 (some err429) 0 (some 1000000) 0 0)
      = some 0 ∧
    reasonHas (EnhancedRetryStrategy.shouldRetry optsCost 0 (some err429) 0 (some 1000000) 0 0)
      costKey = true := by
  have h := c7_cost_aware optsCost 0 (some err429) ErrorType.RATE_LIMIT 0 1000000 0 0 miClaude
    rfl rfl rfl rfl rfl (by norm_num)
  exact h.1 (by norm_num [optsCost, mergeOptions, miClaude, estimateRetryCost])

/-- Claim C10: with cost-aware retry enabled and price metadata present
but the estimated token count zero or omitted, `shouldRetry` skips the
cost check entirely: an otherwise-retryable failure is granted even when
the accumulated cost already exceeds `maxCostThreshold`, and
`getTotalRetryCost` is unchanged by the call. -/
theorem c10_skip_cost_check (opts : StrategyOptions) (total : ℚ) (err : Option Failure)
    (k : ErrorType) (attempt : ℕ) (rand now : ℚ) (est : Option ℚ)
    (hc : classifyError err = Except.ok k)
    (hcust : opts.customRetryCondition = none)
    (helig : shouldRetryError k attempt opts.maxRetries opts.asOptions = true)
    (hcost : opts.costAwareRetry = true)
    (hmi : opts.modelInfo.isSome = true)
    (hest : est = none ∨ est = some 0)
    (hover : opts.maxCostThreshold < total) :
    retryOf (EnhancedRetryStrategy.shouldRetry opts total err attempt est rand now)
      = some true ∧
    costOf (EnhancedRetryStrategy.shouldRetry opts total err attempt est rand now)
      = some (EnhancedRetryStrategy.getTotalRetryCost total) := by
  obtain ⟨mi, hmi'⟩ := Option.isSome_iff_exists.mp hmi
  have htr : truthyNum est = false := by rcases hest with rfl | rfl <;> simp [truthyNum]
  have hred : EnhancedRetryStrategy.shouldRetry opts total err attempt est rand now
      = Except.ok (shouldRetryGrant opts err k attempt rand now total) := by
    simp [EnhancedRetryStrategy.shouldRetry, hc, hcust, helig, hcost, hmi', htr]
  exact ⟨by simp [retryOf, hred, shouldRetryGrant],
    by simp [costOf, hred, shouldRetryGrant, EnhancedRetryStrategy.getTotalRetryCost]⟩

/-- Claim C10 witness: the skip at an accumulated cost of $5, far above
the $0.10 threshold, with the token estimate omitted. -/
theorem c10_witness :
    retryOf (EnhancedRetryStrategy.shouldRetry optsCost 5 (some err429) 0 none 0 0)
      = some true ∧
    costOf (EnhancedRetryStrategy.shouldRetry optsCost 5 (some err429) 0 none 0 0)
      = some (EnhancedRetryStrategy.getTotalRetryCost 5) :=
  c10_skip_cost_check optsCost 5 (some err429) ErrorType.RATE_LIMIT 0 0 0 none
    rfl rfl rfl rfl rfl (Or.inl rfl) (by norm_num [optsCost, mergeOptions])
